import Mathlib

/-!
# Verification of the Analysis module (`src/Analysis.py`)

A shallow embedding of the configuration-driven analysis pipeline:
configuration lookup (`Analysis.get_value`), fetch (`load_data`),
aggregation (`compute_analysis`), rendering (`plot_data`) and
notification (`notify_done`), together with the `__main__` dispatch.

External interactions (HTTP calls, the matplotlib backend) are modelled by
explicit environment values describing their outcome; observable effects of
a run are recorded in an explicit effect trace.  Fallible Python code is
modelled with `Except`: a function body that can raise returns
`Except PyError _`, and a `try/except` wrapper is a total function matching
on that result.
-/

namespace PokeSrc

/-- Structured values as produced by `yaml.safe_load` / `response.json()`:
scalars, sequences and string-keyed mappings.  Numeric scalars are modelled
as integers. -/
inductive Json where
  | null : Json
  | bool (b : Bool) : Json
  | num (n : Int) : Json
  | str (s : String) : Json
  | arr (elems : List Json) : Json
  | obj (fields : List (String × Json)) : Json

/-- Python truthiness of a structured value (`if data:`): `None`, `False`,
zero, the empty string, the empty list and the empty dict are falsy. -/
def truthy : Json → Bool
  | .null => false
  | .bool b => b
  | .num n => n != 0
  | .str s => s != ""
  | .arr elems => !elems.isEmpty
  | .obj fields => !fields.isEmpty

/-- The `Analysis` object: the three configuration dictionaries loaded in
`Analysis.__init__` from `system_config.yml`, `user_config.yml` and
`job_file.yml`.  Each dictionary is an association list from top-level key
to value; `self.analysis_obj` consolidates them in exactly this insertion
order (system, user, job). -/
structure Analysis where
  system_config : List (String × Json)
  user_config : List (String × Json)
  job_config : List (String × Json)

/-- Python dict lookup `config[key]` guarded by `key in config`, as
`Option`: the value at the first matching key, `none` when absent. -/
def dictLookup (config : List (String × Json)) (key : String) : Option Json :=
  (config.find? (fun kv => kv.1 == key)).map (fun kv => kv.2)

/-- `Analysis.get_value`: iterate over `self.analysis_obj.items()` in
insertion order (system_config, user_config, job_config) and return
`config[key]` for the first configuration containing `key`; `None` if no
configuration defines it. -/
def Analysis.get_value (a : Analysis) (key : String) : Option Json :=
  match dictLookup a.system_config key with
  | some v => some v
  | none =>
    match dictLookup a.user_config key with
    | some v => some v
    | none => dictLookup a.job_config key

/-- One entry of `data["results"]`: an object with `name` and `url`
string fields. -/
structure RemoteRecord where
  name : String
  url : String
deriving DecidableEq

/-- The parsed fetch payload consumed by `compute_analysis`:
`data["results"]` is a sequence of records. -/
structure AnalysisData where
  results : List RemoteRecord
deriving DecidableEq

/-- `[entry["name"] for entry in data["results"]]`. -/
def namesOf (records : List RemoteRecord) : List String :=
  records.map RemoteRecord.name

/-- `{type_: pokemon_types.count(type_) for type_ in set(pokemon_types)}`:
the dict comprehension over `set(pokemon_types)`.  Python's set iteration
order is unspecified, so it is passed explicitly as `setOrder`; the dict's
insertion order is that iteration order. -/
def type_distribution (pokemon_types : List String) (setOrder : List String) :
    List (String × Nat) :=
  setOrder.map (fun t => (t, pokemon_types.count t))

/-- `setOrder` is a possible iteration order of `set(pokemon_types)`: it
enumerates exactly the distinct elements of `pokemon_types`, each once, in
some (unspecified) order. -/
def IsSetEnum (pokemon_types setOrder : List String) : Prop :=
  setOrder.Nodup ∧ (∀ t ∈ setOrder, t ∈ pokemon_types) ∧
    (∀ t ∈ pokemon_types, t ∈ setOrder)

instance (pokemon_types setOrder : List String) :
    Decidable (IsSetEnum pokemon_types setOrder) :=
  inferInstanceAs (Decidable (setOrder.Nodup ∧
    (∀ t ∈ setOrder, t ∈ pokemon_types) ∧ (∀ t ∈ pokemon_types, t ∈ setOrder)))

/-- The comparison underlying
`sorted(type_distribution.items(), key=lambda x: x[1], reverse=True)`:
entry `a` may precede entry `b` when `b`'s count is at most `a`'s. -/
def byCountDesc (a b : String × Nat) : Prop := b.2 ≤ a.2

instance : DecidableRel byCountDesc :=
  fun a b => inferInstanceAs (Decidable (b.2 ≤ a.2))

instance : IsTotal (String × Nat) byCountDesc :=
  ⟨fun a b => Nat.le_total b.2 a.2⟩

instance : IsTrans (String × Nat) byCountDesc :=
  ⟨fun _ _ _ hab hbc => Nat.le_trans hbc hab⟩

/-- `sorted(type_distribution.items(), key=lambda x: x[1], reverse=True)`:
Python's `sorted` is a stable sort, and with `reverse=True` it orders by
count descending while ties keep their input order.  Modelled by the stable
`List.insertionSort` under `byCountDesc`, which computes the same function
as any stable descending sort. -/
def most_common_types (dist : List (String × Nat)) : List (String × Nat) :=
  dist.insertionSort byCountDesc

/-- A raised Python exception, reduced to its message (`str(e)`). -/
structure PyError where
  msg : String
deriving DecidableEq

/-- An observable effect of a pipeline run, in occurrence order. -/
inductive Effect where
  /-- The `print(f'analysis_output : ...')` of `compute_analysis`, carrying
  the extracted names and the computed count. -/
  | printedSummary (pokemon_types : List String) (type_count : Nat) : Effect
  /-- A completed `requests.post` to `https://ntfy.sh/{topicname}` with the
  notification body and the `Title` header. -/
  | notifyPost (topicname title : Option Json) (body : String) : Effect
  /-- A `print` of the given text. -/
  | printed (msg : String) : Effect
  /-- `plt.savefig(...)`: the chart artifact written to the configured path. -/
  | chartSaved (path : Option Json) : Effect
  /-- `plt.show()`. -/
  | chartShown : Effect

/-- Whether an effect is a completed notification post. -/
def Effect.isNotifyPost : Effect → Bool
  | .notifyPost _ _ _ => true
  | _ => false

/-- Whether an effect is a chart written to disk. -/
def Effect.isChartSaved : Effect → Bool
  | .chartSaved _ => true
  | _ => false

/-- Whether an effect is the printed analysis summary. -/
def Effect.isPrintedSummary : Effect → Bool
  | .printedSummary _ _ => true
  | _ => false

/-- Outcome of the outbound `requests.post` in `notify_done`:
`posted status` when the call completed (note `requests.post` does not
raise on a non-2xx status), `raised msg` when it raised (network error,
timeout, ...). -/
inductive NotifyEnv where
  | posted (status : Nat) : NotifyEnv
  | raised (msg : String) : NotifyEnv

/-- Outcome of the matplotlib backend calls in `plot_data`: `ok` when
figure creation, drawing, `savefig` and `show` all succeed, `backendRaised`
when one of them raised. -/
inductive RenderEnv where
  | ok : RenderEnv
  | backendRaised (msg : String) : RenderEnv

/-- The constant notification body defined in `notify_done`. -/
def notifyMessage : String :=
  "Analysis is of Pokemon data is complete! Check the results."

/-- The `try` block of `notify_done`: read `topicname` and `title` from the
configuration, post the message, print the success line; raises whatever
the post raised. -/
def notify_body (cfg : Analysis) (env : NotifyEnv) :
    Except PyError (List Effect) :=
  let topicname := cfg.get_value "topicname"
  let title := cfg.get_value "title"
  match env with
  | .posted _ =>
    .ok [Effect.notifyPost topicname title notifyMessage,
         Effect.printed "Notification sent successfully!"]
  | .raised m => .error ⟨m⟩

/-- `notify_done`: the `try/except Exception` wrapper around `notify_body`;
a raised exception is caught and reported by
`print(f"Error sending notification: {str(e)}")`.  The `Except` result
type records whether an exception propagates to the caller. -/
def notify_done (cfg : Analysis) (env : NotifyEnv) :
    Except PyError (List Effect) :=
  match notify_body cfg env with
  | .ok t => .ok t
  | .error e => .ok [Effect.printed ("Error sending notification: " ++ e.msg)]

/-- The `str(e)` of the `AssertionError` raised by
`assert len(pokemon_types) == len(counts), "..."` in `plot_data`. -/
def assertMessage : String :=
  "Length of pokemon_types and counts should be the same."

/-- The `try` block of `plot_data`: the defensive length assertion, then
the matplotlib calls ending in `plt.savefig` and `plt.show`.  Raises the
assertion error on mismatched lengths, or whatever the backend raised. -/
def plot_body (cfg : Analysis) (pokemon_types : List String)
    (counts : List Nat) (renv : RenderEnv) : Except PyError (List Effect) :=
  if pokemon_types.length = counts.length then
    match renv with
    | .ok => .ok [Effect.chartSaved (cfg.get_value "default_save_path"),
                  Effect.chartShown]
    | .backendRaised m => .error ⟨m⟩
  else
    .error ⟨assertMessage⟩

/-- `plot_data`: the `try/except Exception` wrapper around `plot_body`; a
raised exception is caught and reported by
`print(f"Error plotting data: {e}")`.  The `plot_color` argument is passed
to `plt.bar` and does not influence the recorded effects. -/
def plot_data (cfg : Analysis) (pokemon_types : List String)
    (counts : List Nat) (plot_color : Option Json) (renv : RenderEnv) :
    Except PyError (List Effect) :=
  let _ := plot_color
  match plot_body cfg pokemon_types counts renv with
  | .ok t => .ok t
  | .error e => .ok [Effect.printed ("Error plotting data: " ++ e.msg)]

/-- The value and trace returned by a completed `compute_analysis` call:
the Python return value `(type_count, type_distribution,
most_common_types, data)` plus the effect trace of the run. -/
structure ComputeOut where
  type_count : Nat
  type_distribution : List (String × Nat)
  most_common_types : List (String × Nat)
  data : AnalysisData
  trace : List Effect

/-- `compute_analysis`: extract the names, compute the count, build the
distribution over `set(pokemon_types)` (iteration order `setOrder`), sort
the ranking, print the summary, call `notify_done()`, read `plot_color`
and call `plot_data` on the distribution's keys and values, then return.
It has no `try/except` of its own, so an exception raised by a callee
would propagate (`Except.error`). -/
def compute_analysis (cfg : Analysis) (data : AnalysisData)
    (setOrder : List String) (nenv : NotifyEnv) (renv : RenderEnv) :
    Except PyError ComputeOut :=
  let pokemon_types := namesOf data.results
  let type_count := pokemon_types.length
  let dist := type_distribution pokemon_types setOrder
  let ranking := most_common_types dist
  let summary := Effect.printedSummary pokemon_types type_count
  match notify_done cfg nenv with
  | .error e => .error e
  | .ok notifyTrace =>
    let plot_color := cfg.get_value "plot_color"
    match plot_data cfg (dist.map Prod.fst) (dist.map Prod.snd) plot_color renv with
    | .error e => .error e
    | .ok plotTrace =>
      .ok { type_count := type_count
            type_distribution := dist
            most_common_types := ranking
            data := data
            trace := summary :: (notifyTrace ++ plotTrace) }

/-- Outcome of the `requests.get` / `raise_for_status` / `response.json()`
sequence in `load_data`: a transport-level exception, or a response with
`statusError = true` when the status code is in the 400–599 range (the
statuses `raise_for_status` raises on; redirects are resolved by the
client) and `parsed` the result of parsing the body (`none` when the body
is not valid JSON). -/
inductive FetchEnv where
  | transportError (msg : String) : FetchEnv
  | response (statusError : Bool) (parsed : Option Json) : FetchEnv

/-- The `try` block of `load_data`: `requests.get(url)`,
`response.raise_for_status()`, `return response.json()`. -/
def load_data_body (env : FetchEnv) : Except PyError Json :=
  match env with
  | .transportError m => .error ⟨m⟩
  | .response true _ => .error ⟨"HTTPError"⟩
  | .response false none => .error ⟨"JSONDecodeError"⟩
  | .response false (some j) => .ok j

/-- `load_data`: the `try/except Exception` wrapper around
`load_data_body`; any exception is caught, logged via `logging.error`, and
`None` is returned. -/
def load_data (env : FetchEnv) : Option Json :=
  match load_data_body env with
  | .ok j => some j
  | .error _ => none

/-- The fetch outcomes the specification calls failures: a transport
error, an error status, or a non-parseable body. -/
def fetchFails : FetchEnv → Bool
  | .transportError _ => true
  | .response true _ => true
  | .response false none => true
  | .response false (some _) => false

/-- Python truthiness of `load_data`'s result (`None` is falsy). -/
def pyTruthy : Option Json → Bool
  | none => false
  | some j => truthy j

/-- What the `__main__` block does after `data = load_data(pokeapi_url)`. -/
inductive MainAction where
  /-- `compute_analysis(data)` is called with the fetched data. -/
  | invokeAggregator (data : Json) : MainAction
  /-- `print("Failed to retrieve data from PokeAPI.")`. -/
  | printFailure : MainAction

/-- The `if data: compute_analysis(data) else: print(...)` dispatch of the
`__main__` block. -/
def main_dispatch (data : Option Json) : MainAction :=
  match data with
  | some j => if truthy j then .invokeAggregator j else .printFailure
  | none => .printFailure

/-- The effect trace `notify_done` produces for each post outcome. -/
def notifyEffects (cfg : Analysis) : NotifyEnv → List Effect
  | .posted _ => [Effect.notifyPost (cfg.get_value "topicname")
                    (cfg.get_value "title") notifyMessage,
                  Effect.printed "Notification sent successfully!"]
  | .raised m => [Effect.printed ("Error sending notification: " ++ m)]

/-- The effect trace `plot_data` produces for each backend outcome, when
the lengths agree. -/
def plotRenderEffects (cfg : Analysis) : RenderEnv → List Effect
  | .ok => [Effect.chartSaved (cfg.get_value "default_save_path"),
            Effect.chartShown]
  | .backendRaised m => [Effect.printed ("Error plotting data: " ++ m)]

/-- C2's statement of the claimed tie-break: ties in the ranking are
ordered by first appearance in the input sequence.  Modelled from the
spec's words for comparison with the code's ranking. -/
def TiesByFirstAppearance (pokemon_types : List String)
    (ranking : List (String × Nat)) : Prop :=
  ∀ (i j : Nat) (a b : String) (ca cb : Nat), i < j →
    ranking[i]? = some (a, ca) → ranking[j]? = some (b, cb) → ca = cb →
    pokemon_types.indexOf a < pokemon_types.indexOf b

/-- The amended C2 property of the code's ranking: a permutation of the
distribution's entries, sorted by count descending, with ties keeping the
relative order they have in the distribution (the set-iteration order). -/
def RankingGood (dist ranking : List (String × Nat)) : Prop :=
  ranking.Perm dist ∧ ranking.Sorted byCountDesc ∧
    (∀ x y : String × Nat, [x, y].Sublist dist → x.2 = y.2 →
      [x, y].Sublist ranking)

/-- The C5 property of a completed `compute_analysis` run on `records`:
the distribution's counts sum to the input length, which is the returned
total, and its keys are exactly the distinct input names. -/
def DistributionCorrect (records : List RemoteRecord)
    (setOrder : List String) : Prop :=
  ∀ cfg nenv renv, ∃ out,
    compute_analysis cfg ⟨records⟩ setOrder nenv renv = .ok out ∧
    (out.type_distribution.map Prod.snd).sum = records.length ∧
    out.type_count = records.length ∧
    (out.type_distribution.map Prod.fst).Nodup ∧
    (∀ n, n ∈ out.type_distribution.map Prod.fst ↔ n ∈ namesOf records)

/-- The amended C1 property: `get_value` is first-source-wins in the
order system, user, job. -/
def FirstSourceWins (a : Analysis) (key : String) : Prop :=
  (∀ v, dictLookup a.system_config key = some v → a.get_value key = some v) ∧
  (dictLookup a.system_config key = none →
    ∀ v, dictLookup a.user_config key = some v → a.get_value key = some v) ∧
  (dictLookup a.system_config key = none →
    dictLookup a.user_config key = none →
    a.get_value key = dictLookup a.job_config key)

/-- C4's claimed temporal order on a trace: any chart save occurs strictly
before any notification post. -/
def RenderedBeforeNotified (tr : List Effect) : Prop :=
  ∀ (i j : Nat), (tr[i]?).any Effect.isNotifyPost = true →
    (tr[j]?).any Effect.isChartSaved = true → j < i

/-! ## Helper lemmas -/

theorem notify_done_eq (cfg : Analysis) (env : NotifyEnv) :
    notify_done cfg env = .ok (notifyEffects cfg env) := by
  cases env <;> rfl

theorem plot_data_eq_of_length_eq (cfg : Analysis) (types : List String)
    (counts : List Nat) (color : Option Json) (renv : RenderEnv)
    (h : types.length = counts.length) :
    plot_data cfg types counts color renv = .ok (plotRenderEffects cfg renv) := by
  cases renv <;> simp [plot_data, plot_body, h, plotRenderEffects]

theorem plot_data_eq_of_length_ne (cfg : Analysis) (types : List String)
    (counts : List Nat) (color : Option Json) (renv : RenderEnv)
    (h : ¬ types.length = counts.length) :
    plot_data cfg types counts color renv =
      .ok [Effect.printed ("Error plotting data: " ++ assertMessage)] := by
  cases renv <;> simp [plot_data, plot_body, h]

theorem plot_data_on_dist (cfg : Analysis) (dist : List (String × Nat))
    (color : Option Json) (renv : RenderEnv) :
    plot_data cfg (dist.map Prod.fst) (dist.map Prod.snd) color renv =
      .ok (plotRenderEffects cfg renv) :=
  plot_data_eq_of_length_eq _ _ _ _ _ (by simp)

theorem compute_analysis_eq (cfg : Analysis) (data : AnalysisData)
    (setOrder : List String) (nenv : NotifyEnv) (renv : RenderEnv) :
    compute_analysis cfg data setOrder nenv renv = .ok
      { type_count := (namesOf data.results).length
        type_distribution := type_distribution (namesOf data.results) setOrder
        most_common_types :=
          most_common_types (type_distribution (namesOf data.results) setOrder)
        data := data
        trace := Effect.printedSummary (namesOf data.results)
            (namesOf data.results).length ::
          (notifyEffects cfg nenv ++ plotRenderEffects cfg renv) } := by
  simp only [compute_analysis, notify_done_eq, plot_data_on_dist]

theorem dist_keys (names order : List String) :
    (type_distribution names order).map Prod.fst = order := by
  induction order with
  | nil => rfl
  | cons a rest ih => simpa [type_distribution] using ih

theorem dist_values (names order : List String) :
    (type_distribution names order).map Prod.snd =
      order.map (fun t => names.count t) := by
  induction order with
  | nil => rfl
  | cons a rest ih => simp [type_distribution]

theorem sum_counts (names order : List String) (hnd : order.Nodup)
    (hsub : ∀ t ∈ names, t ∈ order) :
    ((type_distribution names order).map Prod.snd).sum = names.length := by
  rw [dist_values]
  have hsubset : names.toFinset ⊆ order.toFinset := by
    intro x hx
    rw [List.mem_toFinset] at hx ⊢
    exact hsub x hx
  have hzero : ∀ x ∈ order.toFinset, x ∉ names.toFinset → names.count x = 0 := by
    intro x _ hx
    rw [List.mem_toFinset] at hx
    exact List.count_eq_zero.mpr hx
  calc (order.map (fun t => names.count t)).sum
      = order.toFinset.sum (fun t => names.count t) :=
        (List.sum_toFinset _ hnd).symm
    _ = names.toFinset.sum (fun t => names.count t) :=
        (Finset.sum_subset hsubset hzero).symm
    _ = names.length := List.sum_toFinset_count_eq_length names

/-! ## Claims -/

/-- C1: the claim asserts last-write-wins merging (job overrides user), but
`get_value` searches `analysis_obj` in insertion order (system, user, job)
and returns the first hit.  Concretely, with `k` defined by the user source
as `"user"` and by the job source as `"job"`, `get_value "k"` returns the
user value, not the job value. -/
theorem C1_counterexample :
    dictLookup (Analysis.mk [] [("k", Json.str "user")]
      [("k", Json.str "job")]).user_config "k" = some (Json.str "user") ∧
    dictLookup (Analysis.mk [] [("k", Json.str "user")]
      [("k", Json.str "job")]).job_config "k" = some (Json.str "job") ∧
    (Analysis.mk [] [("k", Json.str "user")]
      [("k", Json.str "job")]).get_value "k" = some (Json.str "user") ∧
    Json.str "user" ≠ Json.str "job" := by
  refine ⟨rfl, rfl, rfl, ?_⟩
  intro h
  injection h with h1
  exact absurd h1 (by decide)

/-- C1 (amended): configuration lookup is first-source-wins in the order
system, user, job: `get_value` returns the value from the earliest loaded
source that defines the key; in particular when the system source does not
define `k` but the user source does, the user value is returned even if the
job source also defines `k`. -/
theorem C1_first_source_wins : ∀ (a : Analysis) (key : String),
    FirstSourceWins a key := by
  intro a key
  refine ⟨?_, ?_, ?_⟩
  · intro v hv
    simp [Analysis.get_value, hv]
  · intro hs v hv
    simp [Analysis.get_value, hs, hv]
  · intro hs hu
    simp [Analysis.get_value, hs, hu]

/-- Witness for C1 (amended): on the concrete configuration of the
counterexample, `get_value` returns the user source's value. -/
theorem C1_first_source_wins_witness :
    (Analysis.mk [] [("k", Json.str "user")]
      [("k", Json.str "job")]).get_value "k" = some (Json.str "user") :=
  (C1_first_source_wins (Analysis.mk [] [("k", Json.str "user")]
    [("k", Json.str "job")]) "k").2.1 rfl (Json.str "user") rfl

/-- C5: for every input sequence of records (with any set-iteration order),
`compute_analysis` succeeds and its distribution's counts sum to the input
length, which equals the returned total, and the distribution's keys are
exactly the distinct input names, each occurring once. -/
theorem C5_distribution_invariants : ∀ (records : List RemoteRecord)
    (setOrder : List String), IsSetEnum (namesOf records) setOrder →
    DistributionCorrect records setOrder := by
  intro records setOrder h
  obtain ⟨hnd, hord, hnames⟩ := h
  intro cfg nenv renv
  refine ⟨_, compute_analysis_eq cfg ⟨records⟩ setOrder nenv renv, ?_, ?_, ?_, ?_⟩
  · calc ((type_distribution (namesOf records) setOrder).map Prod.snd).sum
        = (namesOf records).length := sum_counts _ _ hnd hnames
      _ = records.length := by simp [namesOf]
  · simp [namesOf]
  · rw [dist_keys]
    exact hnd
  · intro n
    rw [dist_keys]
    exact ⟨fun hn => hord n hn, fun hn => hnames n hn⟩

/-- Witness for C5: the spec's own example, records named fire, water,
fire, with set-iteration order water-then-fire. -/
theorem C5_distribution_invariants_witness :
    DistributionCorrect
      [RemoteRecord.mk "fire" "u1", RemoteRecord.mk "water" "u2",
       RemoteRecord.mk "fire" "u3"] ["water", "fire"] :=
  C5_distribution_invariants _ _ (by decide)

/-- C9: on an empty record sequence `compute_analysis` completes without
error and returns total 0, an empty distribution and an empty ranking. -/
theorem C9_empty_input : ∀ (cfg : Analysis) (setOrder : List String)
    (nenv : NotifyEnv) (renv : RenderEnv),
    IsSetEnum (namesOf []) setOrder →
    ∃ out, compute_analysis cfg ⟨[]⟩ setOrder nenv renv = .ok out ∧
      out.type_count = 0 ∧ out.type_distribution = [] ∧
      out.most_common_types = [] := by
  intro cfg setOrder nenv renv h
  have hnil : setOrder = [] := by
    rcases h with ⟨-, hord, -⟩
    cases setOrder with
    | nil => rfl
    | cons a rest => exact absurd (hord a (by simp)) (by simp [namesOf])
  subst hnil
  exact ⟨_, compute_analysis_eq cfg ⟨[]⟩ [] nenv renv, rfl, rfl, rfl⟩

/-- Witness for C9: a concrete empty-input run. -/
theorem C9_empty_input_witness :
    ∃ out, compute_analysis (Analysis.mk [] [] []) ⟨[]⟩ []
        (NotifyEnv.posted 200) RenderEnv.ok = .ok out ∧
      out.type_count = 0 ∧ out.type_distribution = [] ∧
      out.most_common_types = [] :=
  C9_empty_input (Analysis.mk [] [] []) [] (NotifyEnv.posted 200)
    RenderEnv.ok (by decide)

/-- C2: the claim asserts that ranking ties follow first appearance in the
input; the code's ranking follows the unspecified iteration order of
`set(pokemon_types)`.  With input names grass, fire (each count 1) and set
iteration order fire-then-grass, the ranking lists fire before grass even
though grass appears first in the input. -/
theorem C2_counterexample :
    IsSetEnum ["grass", "fire"] ["fire", "grass"] ∧
    most_common_types (type_distribution ["grass", "fire"] ["fire", "grass"]) =
      [("fire", 1), ("grass", 1)] ∧
    ¬ TiesByFirstAppearance ["grass", "fire"]
      (most_common_types (type_distribution ["grass", "fire"] ["fire", "grass"])) := by
  refine ⟨by decide, by decide, ?_⟩
  intro h
  exact absurd (h 0 1 "fire" "grass" 1 1 (by decide) (by decide) (by decide) rfl)
    (by decide)

/-- C2 (amended): the ranking is a permutation of the distribution's
entries sorted by count descending, and entries with equal counts keep the
relative order they have in the distribution — that is, the iteration
order of `set(pokemon_types)`, which is unspecified and need not be the
order of first appearance in the input. -/
theorem C2_ranking_sorted_stable : ∀ (records : List RemoteRecord)
    (setOrder : List String), IsSetEnum (namesOf records) setOrder →
    RankingGood (type_distribution (namesOf records) setOrder)
      (most_common_types (type_distribution (namesOf records) setOrder)) := by
  intro records setOrder _
  unfold RankingGood most_common_types
  refine ⟨List.perm_insertionSort _ _, List.sorted_insertionSort _ _, ?_⟩
  intro x y hsub heq
  exact List.pair_sublist_insertionSort (by simp [byCountDesc, heq]) hsub

/-- Witness for C2 (amended): a concrete one-record run. -/
theorem C2_ranking_sorted_stable_witness :
    RankingGood
      (type_distribution (namesOf [RemoteRecord.mk "fire" "u"]) ["fire"])
      (most_common_types
        (type_distribution (namesOf [RemoteRecord.mk "fire" "u"]) ["fire"])) :=
  C2_ranking_sorted_stable [RemoteRecord.mk "fire" "u"] ["fire"] (by decide)

/-- C3: the claim asserts `compute_analysis` has no side effects; in fact
on a concrete successful run its trace is nonempty and records both a
notification post and a chart save (besides two prints). -/
theorem C3_counterexample :
    ∃ out, compute_analysis (Analysis.mk [] [] [])
        ⟨[RemoteRecord.mk "fire" "u"]⟩ ["fire"]
        (NotifyEnv.posted 200) RenderEnv.ok = .ok out ∧
      out.trace ≠ [] ∧
      (out.trace[1]?).any Effect.isNotifyPost = true ∧
      (out.trace[3]?).any Effect.isChartSaved = true := by
  refine ⟨_, compute_analysis_eq _ _ _ _ _, by simp, rfl, rfl⟩

/-- C3 (amended): `compute_analysis` is effectful: every run prints the
analysis summary first, and on a run whose notification post completes and
whose render backend succeeds the trace also records the notification post
and the chart save. -/
theorem C3_effects : ∀ (cfg : Analysis) (data : AnalysisData)
    (setOrder : List String) (status : Nat),
    ∃ out, compute_analysis cfg data setOrder (NotifyEnv.posted status)
        RenderEnv.ok = .ok out ∧
      (out.trace[0]?).any Effect.isPrintedSummary = true ∧
      (∃ i : Nat, (out.trace[i]?).any Effect.isNotifyPost = true) ∧
      (∃ j : Nat, (out.trace[j]?).any Effect.isChartSaved = true) := by
  intro cfg data setOrder status
  exact ⟨_, compute_analysis_eq _ _ _ _ _, rfl, ⟨1, rfl⟩, ⟨3, rfl⟩⟩

/-- C4: the claim asserts rendering precedes the completion notification;
in the code `compute_analysis` calls `notify_done()` before `plot_data`,
so on a concrete successful run the notification post (index 1 of the
trace) precedes the chart save (index 3), refuting the claimed order. -/
theorem C4_counterexample :
    ∃ out, compute_analysis (Analysis.mk [] [] [])
        ⟨[RemoteRecord.mk "fire" "u"]⟩ ["fire"]
        (NotifyEnv.posted 200) RenderEnv.ok = .ok out ∧
      ¬ RenderedBeforeNotified out.trace := by
  refine ⟨_, compute_analysis_eq _ _ _ _ _, ?_⟩
  intro h
  exact absurd (h 1 3 rfl rfl) (by omega)

/-- C4 (amended): in every run of `compute_analysis` whose notification
post completes and whose render backend succeeds, the notification post
occurs strictly before the chart save: the Notified stage precedes the
Rendered stage, not the other way around. -/
theorem C4_notify_precedes_render : ∀ (cfg : Analysis) (data : AnalysisData)
    (setOrder : List String) (status : Nat),
    ∃ out, compute_analysis cfg data setOrder (NotifyEnv.posted status)
        RenderEnv.ok = .ok out ∧
      ∃ i j : Nat, i < j ∧ (out.trace[i]?).any Effect.isNotifyPost = true ∧
        (out.trace[j]?).any Effect.isChartSaved = true := by
  intro cfg data setOrder status
  exact ⟨_, compute_analysis_eq _ _ _ _ _, 1, 3, by omega, rfl, rfl⟩

/-- C6: whenever the fetch fails — transport error, error status, or
non-parseable body — the `try` body of `load_data` raises, `load_data`
catches and returns `None`, and the `__main__` dispatch then prints the
failure message instead of invoking `compute_analysis`. -/
theorem C6_fetch_failure : ∀ (env : FetchEnv), fetchFails env = true →
    (∃ e, load_data_body env = Except.error e) ∧ load_data env = none ∧
    main_dispatch (load_data env) = MainAction.printFailure := by
  intro env h
  cases env with
  | transportError m => exact ⟨⟨⟨m⟩, rfl⟩, rfl, rfl⟩
  | response serr parsed =>
    cases serr with
    | true => exact ⟨⟨⟨"HTTPError"⟩, rfl⟩, rfl, rfl⟩
    | false =>
      cases parsed with
      | none => exact ⟨⟨⟨"JSONDecodeError"⟩, rfl⟩, rfl, rfl⟩
      | some j => simp [fetchFails] at h

/-- Witness for C6: a concrete transport failure. -/
theorem C6_fetch_failure_witness :
    (∃ e, load_data_body (FetchEnv.transportError "connection refused") =
      Except.error e) ∧
    load_data (FetchEnv.transportError "connection refused") = none ∧
    main_dispatch (load_data (FetchEnv.transportError "connection refused")) =
      MainAction.printFailure :=
  C6_fetch_failure (FetchEnv.transportError "connection refused") rfl

/-- C7: notification failure is non-fatal: for every outcome of the
outbound post, `notify_done` returns normally (never `Except.error`), and
the analysis results of `compute_analysis` — which still completes — do
not depend on the notification outcome. -/
theorem C7_notify_nonfatal : ∀ (cfg : Analysis) (env : NotifyEnv),
    (∃ t, notify_done cfg env = Except.ok t) ∧
    (∀ (data : AnalysisData) (setOrder : List String) (renv : RenderEnv)
      (env2 : NotifyEnv),
      ∃ o1 o2, compute_analysis cfg data setOrder env renv = .ok o1 ∧
        compute_analysis cfg data setOrder env2 renv = .ok o2 ∧
        o1.type_count = o2.type_count ∧
        o1.type_distribution = o2.type_distribution ∧
        o1.most_common_types = o2.most_common_types) := by
  intro cfg env
  refine ⟨⟨_, notify_done_eq cfg env⟩, ?_⟩
  intro data setOrder renv env2
  exact ⟨_, _, compute_analysis_eq _ _ _ _ _, compute_analysis_eq _ _ _ _ _,
    rfl, rfl, rfl⟩

/-- C8: on mismatched label/count lengths the defensive assertion in
`plot_data` raises, the `except` catches it, the mismatch is reported by
the error print, the call returns normally (no crash), and no chart is
saved. -/
theorem C8_mismatched_lengths : ∀ (cfg : Analysis) (types : List String)
    (counts : List Nat) (color : Option Json) (renv : RenderEnv),
    types.length ≠ counts.length →
    plot_data cfg types counts color renv =
      .ok [Effect.printed ("Error plotting data: " ++ assertMessage)] ∧
    ∀ e ∈ [Effect.printed ("Error plotting data: " ++ assertMessage)],
      e.isChartSaved = false := by
  intro cfg types counts color renv h
  exact ⟨plot_data_eq_of_length_ne _ _ _ _ _ h, by simp [Effect.isChartSaved]⟩

/-- Witness for C8: one label and no counts. -/
theorem C8_mismatched_lengths_witness :
    plot_data (Analysis.mk [] [] []) ["a"] [] none RenderEnv.ok =
      .ok [Effect.printed ("Error plotting data: " ++ assertMessage)] ∧
    ∀ e ∈ [Effect.printed ("Error plotting data: " ++ assertMessage)],
      e.isChartSaved = false :=
  C8_mismatched_lengths (Analysis.mk [] [] []) ["a"] [] none RenderEnv.ok
    (by decide)

/-- C10: the `__main__` block invokes the aggregator exactly when
`load_data`'s result is truthy; a successful fetch with a falsy parsed
body (empty object, empty list, ...) takes the same branch as a fetch
failure, printing the failure message instead. -/
theorem C10_truthiness_gate : ∀ (d : Option Json),
    ((∃ j, main_dispatch d = MainAction.invokeAggregator j) ↔
      pyTruthy d = true) ∧
    (pyTruthy d = false → main_dispatch d = MainAction.printFailure) := by
  intro d
  cases d with
  | none => simp [main_dispatch, pyTruthy]
  | some j => cases hj : truthy j <;> simp [main_dispatch, pyTruthy, hj]

/-- Witness for C10: a fetch that succeeds with an empty JSON object is
dispatched to the failure branch. -/
theorem C10_truthiness_gate_witness :
    main_dispatch (some (Json.obj [])) = MainAction.printFailure :=
  (C10_truthiness_gate (some (Json.obj []))).2 rfl

end PokeSrc
